import Mathlib

/-!
Verification development for the `stream-gears` binding crate of biliup-rs
(`crates/stream-gears/src/lib.rs` and `crates/stream-gears/src/uploader.rs`).

The Rust code is shallowly embedded: pure data manipulation becomes Lean
functions, fallible steps (`Result`, the `?` operator) become `Except`,
`unwrap`-panics become a dedicated `panics` outcome, and the external
collaborators (the biliup library crate's network/IO operations, which live
in this repository but outside the two files above) are passed in as
function-valued parameters ("oracles") so that the control flow written in
the two source files is what the theorems are about.
-/

namespace StreamGears

/-! ## JSON values (model of serde_json::Value as used by the sources) -/

/-- Model of `serde_json::Value`: numbers are modelled as integers, which
covers every numeric field the sources touch (status codes). -/
inductive Json where
  | null
  | bool (b : Bool)
  | num (n : Int)
  | str (s : String)
  | arr (elems : List Json)
  | obj (fields : List (String × Json))

/-- Model of `value[key]` (`Index<&str> for Value`): a missing key, or
indexing a non-object, yields `Null`; it does not panic. -/
def Json.get (j : Json) (key : String) : Json :=
  match j with
  | .obj fields =>
    match fields.lookup key with
    | some v => v
    | none => .null
  | _ => .null

/-- Model of `Value::as_str`. -/
def Json.asStr : Json → Option String
  | .str s => some s
  | _ => none

/-- Model of `Value::as_i64`, which is what `value == 0` compares through:
only an integral number compares equal to an integer. -/
def Json.asInt : Json → Option Int
  | .num n => some n
  | _ => none

mutual

/-- Display rendering of a JSON value, for the `format!("Edit failed: {}", response)`
message (string escaping elided). -/
def Json.render : Json → String
  | .null => "null"
  | .bool b => if b then "true" else "false"
  | .num n => toString n
  | .str s => "\"" ++ s ++ "\""
  | .arr elems => "[" ++ Json.renderElems elems ++ "]"
  | .obj fields => "\x7b" ++ Json.renderFields fields ++ "\x7d"

/-- Comma-separated rendering of array elements. -/
def Json.renderElems : List Json → String
  | [] => ""
  | [v] => Json.render v
  | v :: rest => Json.render v ++ "," ++ Json.renderElems rest

/-- Comma-separated rendering of object fields. -/
def Json.renderFields : List (String × Json) → String
  | [] => ""
  | [(k, v)] => "\"" ++ k ++ "\":" ++ Json.render v
  | (k, v) :: rest => "\"" ++ k ++ "\":" ++ Json.render v ++ "," ++ Json.renderFields rest

end

/-! ## Error model -/

/-- Modelled from the spec: the error kinds of `biliup::error::Kind` /
`AuthError` (§7 of the spec: Io, InvalidCredential, NotScanned, Expired,
InvalidCode). The type itself lives in the biliup crate, outside the two
source files; the sources match on its IO variant (`Kind::IO`). -/
inductive Kind where
  | ioError (msg : String)
  | invalidCredential (msg : String)
  | notScanned
  | expired
  | invalidCode

/-- Modelled from the spec: display text of an error kind (exact wording lives
in the biliup crate, outside src). -/
def Kind.display : Kind → String
  | .ioError m => m
  | .invalidCredential m => m
  | .notScanned => "not scanned"
  | .expired => "expired"
  | .invalidCode => "invalid code"

/-- Model of `anyhow::Error`: a root error (a `Kind`, a raw io error, or a
message built with `anyhow!`) possibly wrapped in `with_context` layers.
The wrapped source error stays reachable (anyhow preserves the cause chain). -/
inductive AnyhowError where
  | ofKind (k : Kind)
  | ioRaw (msg : String)
  | msg (s : String)
  | context (ctx : String) (inner : AnyhowError)

/-- Display of an anyhow error: the outermost context message. -/
def AnyhowError.display : AnyhowError → String
  | .ofKind k => k.display
  | .ioRaw m => m
  | .msg s => s
  | .context c _ => c

/-- Model of `anyhow::Error::root_cause`: the innermost error's display. -/
def AnyhowError.rootCause : AnyhowError → String
  | .ofKind k => k.display
  | .ioRaw m => m
  | .msg s => s
  | .context _ inner => inner.rootCause

/-- The underlying `Kind` of an anyhow error, if its root is a `Kind`
(anyhow downcasting through context layers). -/
def AnyhowError.kindOf : AnyhowError → Option Kind
  | .ofKind k => some k
  | .context _ inner => inner.kindOf
  | _ => none

/-- Whether an anyhow error carries at least one `with_context` layer. -/
def AnyhowError.hasContext : AnyhowError → Bool
  | .context _ _ => true
  | _ => false

/-- Model of `pyerr_from_anyhow` (lib.rs 435-437): the `PyRuntimeError`
message `format!("{}, {}", err.root_cause(), err)`. -/
def pyerrFromAnyhow (e : AnyhowError) : String :=
  e.rootCause ++ ", " ++ e.display

/-- Outcome of a Python-facing call: a value, a raised error, or a Rust
panic (`unwrap` on `None`), which is an unrecoverable fatal stop and not a
typed error value. -/
inductive PyOutcome (α : Type) where
  | ok (a : α)
  | err (e : String)
  | panics

/-- Map over the `ok` value of an outcome (model of `Result::map` on the
Python-facing result; errors and panics pass through). -/
def PyOutcome.map {α β : Type} (f : α → β) : PyOutcome α → PyOutcome β
  | .ok a => .ok (f a)
  | .err e => .err e
  | .panics => .panics

/-! ## Upload data model (uploader.rs) -/

/-- The `UploadLine` enum exposed to Python (uploader.rs 19-32);
the commented-out variants (Kodo, Cos, CosInternal) are omitted as in the source. -/
inductive UploadLine where
  | bda2
  | ws
  | qn
  | bldsa
  | tx
  | txa
  | bda

/-- Modelled from the spec: the fixed named CDN endpoints produced by the
`biliup::uploader::line` constructors (`line::bda2()` etc.), plus the fixed
default line `Line::default()` used as fallback (§4.2: "fall back to a fixed
default line"). The endpoint configuration data lives in the biliup crate,
outside src, so each endpoint is modelled as a distinct tag; a successful
probe also yields such a value. -/
inductive Line where
  | bda2
  | ws
  | qn
  | bda
  | tx
  | txa
  | bldsa
  | defaultLine

/-- `PyCredit` (uploader.rs 34-42). -/
structure PyCredit where
  typeId : Int
  rawText : String
  bizId : Option String

/-- `biliup::uploader::bilibili::Credit` as constructed at uploader.rs 157-164. -/
structure Credit where
  typeId : Int
  rawText : String
  bizId : Option String

/-- `StudioPre` (uploader.rs 44-70). -/
structure StudioPre where
  videoPath : List String
  cookieFile : String
  line : Option UploadLine
  limit : Nat
  title : String
  tid : Nat
  tag : String
  copyright : Nat
  source : String
  desc : String
  dynamic : String
  cover : String
  dtime : Option Nat
  dolby : Nat
  losslessMusic : Nat
  noReprint : Nat
  openElec : Nat
  upCloseReply : Bool
  upSelectionReply : Bool
  upCloseDanmu : Bool
  descV2Credit : List PyCredit

/-- Modelled from the spec: the `Studio` publish record of the biliup crate
(spec §3 PublishRecord), restricted to exactly the fields the builder call at
uploader.rs 166-185 sets. `P` is the uploaded-video-part type, which the
sources carry around without inspecting. -/
structure Studio (P : Type) where
  desc : String
  dtime : Option Nat
  copyright : Nat
  cover : String
  dynamic : String
  source : String
  tag : String
  tid : Nat
  title : String
  videos : List P
  dolby : Nat
  losslessMusic : Nat
  noReprint : Nat
  openElec : Nat
  upCloseReply : Bool
  upSelectionReply : Bool
  upCloseDanmu : Bool
  descV2 : Option (List Credit)

/-- The `ResponseData` returned by submission; the sources only read its
`data` field (`value.data.unwrap()` at lib.rs 359), which is an optional
JSON payload. -/
structure ResponseData where
  data : Option Json

/-- The `PyCredit` → `Credit` conversion loop (uploader.rs 157-164). -/
def creditOfPy (c : PyCredit) : Credit :=
  { typeId := c.typeId, rawText := c.rawText, bizId := c.bizId }

/-- The `Studio::builder()...build()` call (uploader.rs 166-185): assembles the
publish record from the caller metadata, the uploaded parts in order, and the
converted credit list. -/
def buildStudio {P : Type} (pre : StudioPre) (videos : List P) : Studio P :=
  { desc := pre.desc
    dtime := pre.dtime
    copyright := pre.copyright
    cover := pre.cover
    dynamic := pre.dynamic
    source := pre.source
    tag := pre.tag
    tid := pre.tid
    title := pre.title
    videos := videos
    dolby := pre.dolby
    losslessMusic := pre.losslessMusic
    noReprint := pre.noReprint
    openElec := pre.openElec
    upCloseReply := pre.upCloseReply
    upSelectionReply := pre.upSelectionReply
    upCloseDanmu := pre.upCloseDanmu
    descV2 := some (pre.descV2Credit.map creditOfPy) }

/-! ## Upload pipeline (uploader.rs upload2, lib.rs upload2/upload) -/

/-- The cookie-login step of `upload2` (uploader.rs 106-112): an IO-kind
login failure is wrapped with the context `"open cookies file: <path>"`;
any other failure (and the success) passes through unchanged. `B` is the
authenticated-session type (`BiliBili`), never inspected here. -/
def loginStep {B : Type} (result : Except Kind B) (cookieFile : String) :
    Except AnyhowError B :=
  match result with
  | .error (Kind.ioError m) =>
    .error (.context ("open cookies file: " ++ cookieFile) (.ofKind (Kind.ioError m)))
  | .error k => .error (.ofKind k)
  | .ok b => .ok b

/-- The bare `login_by_cookies(&cookie_file).await?` step used by `fetch`,
`edit`, `archives`, `delete` (uploader.rs 207, 219, 246, 252): no context. -/
def loginPlain {B : Type} (result : Except Kind B) : Except AnyhowError B :=
  match result with
  | .error k => .error (.ofKind k)
  | .ok b => .ok b

/-- Whether a fallible step's error carries a `with_context` layer. -/
def errHasContext {B : Type} : Except AnyhowError B → Bool
  | .error e => e.hasContext
  | .ok _ => false

/-- The underlying `Kind` of a fallible step's error, when its root is a
`Kind` (what anyhow downcasting recovers for the caller). -/
def errKindOf {B : Type} : Except AnyhowError B → Option Kind
  | .error e => e.kindOf
  | .ok _ => none

/-- The fixed endpoint selected for each explicitly supplied `UploadLine`
(the `Some(...)` arms of the match at uploader.rs 116-126). -/
def fixedLineOf : UploadLine → Line
  | .bda2 => .bda2
  | .ws => .ws
  | .qn => .qn
  | .bda => .bda
  | .tx => .tx
  | .txa => .txa
  | .bldsa => .bldsa

/-- Line selection (uploader.rs 116-128): an explicit line maps to its fixed
endpoint; otherwise the probe result is used, with `unwrap_or_default()`
falling back to the fixed default line when probing errors. -/
def selectLine (line : Option UploadLine) (probeResult : Except String Line) : Line :=
  match line with
  | some .bda2 => .bda2
  | some .ws => .ws
  | some .qn => .qn
  | some .bda => .bda
  | some .tx => .tx
  | some .txa => .txa
  | some .bldsa => .bldsa
  | none =>
    match probeResult with
    | .ok l => l
    | .error _ => Line.defaultLine

/-- One iteration of the per-file loop body (uploader.rs 129-154): canonicalize
the path (`?` aborts), open the `VideoFile` (`?`), `pre_upload` (`?`), then the
chunked `upload` (`?`). The four fallible collaborators are oracles: `VF` is
the video-file type, `U` the pre-upload session type, `P` the uploaded-part
type. -/
def processFile {VF U P : Type}
    (canon : String → Except AnyhowError String)
    (videoFileNew : String → Except AnyhowError VF)
    (preUpload : VF → Except AnyhowError U)
    (doUpload : U → Except AnyhowError P)
    (path : String) : Except AnyhowError P :=
  match canon path with
  | .error e => .error e
  | .ok _ =>
    match videoFileNew path with
    | .error e => .error e
    | .ok vf =>
      match preUpload vf with
      | .error e => .error e
      | .ok u => doUpload u

/-- The `for video_path in video_path` loop (uploader.rs 129-155): files are
processed in the given order; each success is appended to the accumulator;
the first failure aborts the whole loop with that error. -/
def uploadLoop {VF U P : Type}
    (canon : String → Except AnyhowError String)
    (videoFileNew : String → Except AnyhowError VF)
    (preUpload : VF → Except AnyhowError U)
    (doUpload : U → Except AnyhowError P) :
    List String → Except AnyhowError (List P)
  | [] => .ok []
  | path :: rest =>
    match processFile canon videoFileNew preUpload doUpload path with
    | .error e => .error e
    | .ok part =>
      match uploadLoop canon videoFileNew preUpload doUpload rest with
      | .error e => .error e
      | .ok parts => .ok (part :: parts)

/-- Cover resolution (uploader.rs 187-196): a non-empty cover reference is
read from disk — a read failure is wrapped with the context
`"cover: <path>"` — and uploaded via `cover_up`, whose URL replaces the
cover field; an empty cover is left untouched with no upload. -/
def resolveCover {P : Type}
    (readFile : String → Except AnyhowError (List Nat))
    (coverUp : List Nat → Except AnyhowError String)
    (studio : Studio P) : Except AnyhowError (Studio P) :=
  if studio.cover = "" then
    .ok studio
  else
    match readFile studio.cover with
    | .error e => .error (.context ("cover: " ++ studio.cover) e)
    | .ok input =>
      match coverUp input with
      | .error e => .error e
      | .ok url => .ok { studio with cover := url }

/-- The external collaborators of the upload pipeline (all living in the
biliup crate, outside the two source files): login, probing, filesystem and
network steps. `B` session, `VF` video file, `U` pre-upload session, `P`
uploaded part. -/
structure UploadOracles (B VF U P : Type) where
  login : Except Kind B
  probe : Except String Line
  canonicalize : String → Except AnyhowError String
  videoFileNew : String → Except AnyhowError VF
  preUpload : B → Line → VF → Except AnyhowError U
  doUpload : U → Nat → Except AnyhowError P
  readFile : String → Except AnyhowError (List Nat)
  coverUp : B → List Nat → Except AnyhowError String
  submit : B → Studio P → Except AnyhowError ResponseData
  submitByApp : B → Studio P → Option String → Option String → Except AnyhowError ResponseData

/-- `uploader::upload2` (uploader.rs 72-204): login with context tagging,
line selection, the sequential per-file upload loop, studio assembly, cover
resolution, then exactly one of the two submission modes chosen by `byApp`
(the app mode additionally receiving the proxy and user-agent options). -/
def uploaderUpload2 {B VF U P : Type} (o : UploadOracles B VF U P)
    (pre : StudioPre) (byApp : Bool) (proxy userAgent : Option String) :
    Except AnyhowError ResponseData :=
  match loginStep o.login pre.cookieFile with
  | .error e => .error e
  | .ok b =>
    let line := selectLine pre.line o.probe
    match uploadLoop o.canonicalize o.videoFileNew (o.preUpload b line)
        (fun u => o.doUpload u pre.limit) pre.videoPath with
    | .error e => .error e
    | .ok videos =>
      match resolveCover o.readFile (o.coverUp b) (buildStudio pre videos) with
      | .error e => .error e
      | .ok studio =>
        match byApp with
        | true => o.submitByApp b studio proxy userAgent
        | false => o.submit b studio

/-- The identifier extraction at lib.rs 358-361: an error from the pipeline
becomes a Python exception via `pyerr_from_anyhow`; on success,
`value.data.unwrap()["bvid"].as_str().unwrap().to_owned()` — an absent data
payload or an absent/non-string `bvid` field panics. -/
def extractBvid (r : Except AnyhowError ResponseData) : PyOutcome String :=
  match r with
  | .error e => .err (pyerrFromAnyhow e)
  | .ok value =>
    match value.data with
    | none => .panics
    | some d =>
      match (d.get "bvid").asStr with
      | none => .panics
      | some s => .ok s

/-- The argument bundle of the Python-facing `upload2` (lib.rs 306-331),
excluding `by_app`, the three reply/danmu flags, `proxy` and `user_agent`,
which are passed separately. -/
structure UploadArgs where
  videoPath : List String
  cookieFile : String
  title : String
  tid : Nat
  tag : String
  copyright : Nat
  source : String
  desc : String
  dynamic : String
  cover : String
  dolby : Nat
  losslessMusic : Nat
  noReprint : Nat
  openElec : Nat
  limit : Nat
  descV2 : List PyCredit
  dtime : Option Nat
  line : Option UploadLine

/-- The `StudioPre::builder()...build()` call of lib.rs 334-356. -/
def studioPreOfArgs (a : UploadArgs)
    (upCloseReply upSelectionReply upCloseDanmu : Bool) : StudioPre :=
  { videoPath := a.videoPath
    cookieFile := a.cookieFile
    line := a.line
    limit := a.limit
    title := a.title
    tid := a.tid
    tag := a.tag
    copyright := a.copyright
    source := a.source
    desc := a.desc
    dynamic := a.dynamic
    cover := a.cover
    dtime := a.dtime
    dolby := a.dolby
    losslessMusic := a.losslessMusic
    noReprint := a.noReprint
    openElec := a.openElec
    upCloseReply := upCloseReply
    upSelectionReply := upSelectionReply
    upCloseDanmu := upCloseDanmu
    descV2Credit := a.descV2 }

/-- The Python-facing `upload2` (lib.rs 306-363): build the `StudioPre`, run
the pipeline, extract the `bvid`. -/
def pyUpload2 {B VF U P : Type} (o : UploadOracles B VF U P) (byApp : Bool)
    (a : UploadArgs) (upCloseReply upSelectionReply upCloseDanmu : Bool)
    (proxy userAgent : Option String) : PyOutcome String :=
  extractBvid (uploaderUpload2 o
    (studioPreOfArgs a upCloseReply upSelectionReply upCloseDanmu) byApp proxy userAgent)

/-- The legacy Python-facing `upload` (lib.rs 196-245): delegates to `upload2`
with `by_app = false`, all three reply/danmu flags `false`, and no proxy or
user-agent override, then discards the returned identifier (`.map(|_| ())`). -/
def pyUpload {B VF U P : Type} (o : UploadOracles B VF U P) (a : UploadArgs) :
    PyOutcome Unit :=
  PyOutcome.map (fun _ => ())
    (pyUpload2 o false a false false false none none)

/-! ## Edit pipeline (uploader.rs edit) -/

/-- The external collaborators of `edit` (uploader.rs 212-243): cookie login,
fetching the current studio record, reading the local cover file
(`tokio::fs::read`), uploading the cover, and the resubmission call. -/
structure EditOracles (B P : Type) where
  login : Except Kind B
  studioData : B → Except AnyhowError (Studio P)
  readFile : String → Except AnyhowError (List Nat)
  coverUp : B → List Nat → Except AnyhowError String
  editSubmit : B → Studio P → Except AnyhowError Json

/-- The fetch-and-override prefix of `edit` (uploader.rs 219-234): fetch the
current record, then apply whichever of the title / cover / tag overrides are
supplied; a supplied cover is read from disk and uploaded, its remote URL
replacing the cover field; an unsupplied field keeps the fetched value. -/
def editPrepare {B P : Type} (o : EditOracles B P)
    (title cover tag : Option String) : Except AnyhowError (B × Studio P) :=
  match loginPlain o.login with
  | .error e => .error e
  | .ok b =>
    match o.studioData b with
    | .error e => .error e
    | .ok studio0 =>
      let studio1 :=
        match title with
        | some t => { studio0 with title := t }
        | none => studio0
      match cover with
      | some c =>
        match o.readFile c with
        | .error e => .error e
        | .ok input =>
          match o.coverUp b input with
          | .error e => .error e
          | .ok url =>
            let studio2 := { studio1 with cover := url }
            match tag with
            | some t => .ok (b, { studio2 with tag := t })
            | none => .ok (b, studio2)
      | none =>
        match tag with
        | some t => .ok (b, { studio1 with tag := t })
        | none => .ok (b, studio1)

/-- `uploader::edit` (uploader.rs 212-243): prepare the overridden record,
resubmit it, then fail with `anyhow!("Edit failed: {response}")` exactly when
`response["code"] != 0` (an integral zero status), returning the payload
otherwise. -/
def edit {B P : Type} (o : EditOracles B P)
    (title cover tag : Option String) : Except AnyhowError Json :=
  match editPrepare o title cover tag with
  | .error e => .error e
  | .ok (b, studio) =>
    match o.editSubmit b studio with
    | .error e => .error e
    | .ok response =>
      if (response.get "code").asInt ≠ some (0 : Int) then
        .error (.msg ("Edit failed: " ++ response.render))
      else
        .ok response

/-! ## SMS login (lib.rs login_by_sms) -/

/-- The Python-facing `login_by_sms` (lib.rs 131-140): the returned
correlation token string is parsed with `serde_json::from_str(...).unwrap()`
(a parse failure panics), then the inner `login::login_by_sms` — repository
code absent from src, modelled as an oracle failing with a `Kind` (spec §4.1:
`AuthError::InvalidCode` on a rejected code) — decides the outcome: success
maps to `Ok(true)` and every failure maps to `Ok(false)`. `T` is the parsed
token type, `R` the inner success payload (discarded). -/
def pyLoginBySms {T R : Type} (parse : String → Option T)
    (inner : Nat → T → Except Kind R) (code : Nat) (ret : String) :
    PyOutcome Bool :=
  match parse ret with
  | none => .panics
  | some tok =>
    match inner code tok with
    | .ok _ => .ok true
    | .error _ => .ok false

/-! ## Download naming hook (lib.rs download_with_callback) -/

/-- Observable effect of one hook invocation as wired at lib.rs 79-88: the
Python callback either returns (its value is discarded: `Ok(_) => {}`) or
raises, in which case the error is logged
(`tracing::error!("Unable to invoke the callback function.")`) and nothing
is propagated. -/
inductive HookEffect where
  | silent
  | loggedError

/-- The closure built at lib.rs 79-88 around the Python callback: invoke the
callback with the proposed file name; a raised error becomes a logged error,
a success is discarded; either way the closure returns normally. `α` is the
Python return type, `ε` the Python error type. -/
def wrapCallback {ε α : Type} (callbackFn : String → Except ε α) :
    String → HookEffect :=
  fun fmtFileName =>
    match callbackFn fmtFileName with
    | .ok _ => .silent
    | .error _ => .loggedError

/-- One event of a segmented download stream: a new segment with its proposed
file name, or an unrecoverable transport error. -/
inductive DlEvent where
  | segment (proposedName : String)
  | transportError (msg : String)

/-- Modelled from the spec: the segmented download loop of
`biliup::downloader::download` (spec §4.5) — repository code absent from src.
On each new segment the optional naming hook is invoked synchronously with
the proposed file name; the hook constructed in src returns no override, so
the segment keeps the proposed default name; an unrecoverable transport
error aborts the download with that error. The result lists each written
segment name together with the hook effect observed for it. -/
def downloadModel (hook : Option (String → HookEffect)) :
    List DlEvent → Except String (List (String × HookEffect))
  | [] => .ok []
  | .transportError m :: _ => .error m
  | .segment name :: rest =>
    let eff :=
      match hook with
      | some h => h name
      | none => HookEffect.silent
    match downloadModel hook rest with
    | .error e => .error e
    | .ok files => .ok ((name, eff) :: files)

/-! ## Concrete instances used by the witnesses -/

/-- A fully successful set of upload collaborators, whose submission response
carries `data = {"bvid": "BV1demo"}`. -/
def demoOracles : UploadOracles Unit Unit Unit Unit :=
  { login := .ok ()
    probe := .error "probe timeout"
    canonicalize := fun p => .ok p
    videoFileNew := fun _ => .ok ()
    preUpload := fun _ _ _ => .ok ()
    doUpload := fun _ _ => .ok ()
    readFile := fun _ => .ok []
    coverUp := fun _ _ => .ok "https://example.invalid/cover.png"
    submit := fun _ _ => .ok ⟨some (.obj [("bvid", .str "BV1demo")])⟩
    submitByApp := fun _ _ _ _ => .ok ⟨some (.obj [("bvid", .str "BV1demo")])⟩ }

/-- A concrete argument bundle for the Python-facing upload entry points. -/
def demoArgs : UploadArgs :=
  { videoPath := ["a.mp4"]
    cookieFile := "cookies.json"
    title := "t"
    tid := 171
    tag := ""
    copyright := 2
    source := ""
    desc := ""
    dynamic := ""
    cover := ""
    dolby := 0
    losslessMusic := 0
    noReprint := 0
    openElec := 0
    limit := 3
    descV2 := []
    dtime := none
    line := none }

/-- A fetched studio record with title "A", used to exercise the edit
override behaviour. -/
def demoFetched : Studio Unit :=
  { desc := "d"
    dtime := none
    copyright := 1
    cover := "https://example.invalid/old.png"
    dynamic := ""
    source := ""
    tag := "old-tag"
    tid := 171
    title := "A"
    videos := [()]
    dolby := 0
    losslessMusic := 0
    noReprint := 0
    openElec := 0
    upCloseReply := false
    upSelectionReply := false
    upCloseDanmu := false
    descV2 := none }

/-- Edit collaborators that fetch `demoFetched` and whose resubmission
responds with status code 0. -/
def demoEditOracles : EditOracles Unit Unit :=
  { login := .ok ()
    studioData := fun _ => .ok demoFetched
    readFile := fun _ => .ok [1, 2]
    coverUp := fun _ _ => .ok "https://example.invalid/new.png"
    editSubmit := fun _ _ => .ok (.obj [("code", .num 0), ("message", .str "0")]) }

/-! ## Helper lemmas -/

/-- On a fully successful run, the upload loop yields one part per input file,
the i-th part being the one produced for the i-th file. -/
theorem uploadLoop_ok_length_get {VF U P : Type}
    (canon : String → Except AnyhowError String)
    (videoFileNew : String → Except AnyhowError VF)
    (preUp : VF → Except AnyhowError U)
    (doUp : U → Except AnyhowError P) :
    ∀ (paths : List String) (parts : List P),
      uploadLoop canon videoFileNew preUp doUp paths = .ok parts →
      parts.length = paths.length ∧
      ∀ i (h1 : i < paths.length) (h2 : i < parts.length),
        processFile canon videoFileNew preUp doUp (paths.get ⟨i, h1⟩)
          = .ok (parts.get ⟨i, h2⟩) := by
  intro paths
  induction paths with
  | nil =>
    intro parts h
    have hparts : parts = [] := by simpa [uploadLoop] using h.symm
    subst hparts
    exact ⟨rfl, fun i h1 _ => absurd h1 (by simp)⟩
  | cons p rest ih =>
    intro parts h
    rw [uploadLoop] at h
    cases hp : processFile canon videoFileNew preUp doUp p with
    | error e =>
      rw [hp] at h
      simp at h
    | ok part =>
      rw [hp] at h
      cases hr : uploadLoop canon videoFileNew preUp doUp rest with
      | error e =>
        rw [hr] at h
        simp at h
      | ok parts' =>
        rw [hr] at h
        simp at h
        subst h
        obtain ⟨hlen, hget⟩ := ih parts' hr
        refine ⟨by simp [hlen], ?_⟩
        intro i h1 h2
        match i with
        | 0 => simpa using hp
        | Nat.succ j =>
          have hb1 : j < rest.length := by simpa using Nat.lt_of_succ_lt_succ (by simpa using h1)
          have hb2 : j < parts'.length := by simpa using Nat.lt_of_succ_lt_succ (by simpa using h2)
          simpa using hget j hb1 hb2

/-- When every file before `p` uploads fine and `p` fails with `e`, the whole
loop aborts with exactly `e`, whatever comes after `p`. -/
theorem uploadLoop_abort_first {VF U P : Type}
    (canon : String → Except AnyhowError String)
    (videoFileNew : String → Except AnyhowError VF)
    (preUp : VF → Except AnyhowError U)
    (doUp : U → Except AnyhowError P)
    (pre : List String) (p : String) (post : List String) (e : AnyhowError)
    (hpre : ∀ q ∈ pre, ∃ part, processFile canon videoFileNew preUp doUp q = .ok part)
    (hp : processFile canon videoFileNew preUp doUp p = .error e) :
    uploadLoop canon videoFileNew preUp doUp (pre ++ p :: post) = .error e := by
  induction pre with
  | nil => simp [uploadLoop, hp]
  | cons q qs ih =>
    obtain ⟨part, hq⟩ := hpre q (List.mem_cons_self q qs)
    have hrest := ih (fun r hr => hpre r (List.mem_cons_of_mem q hr))
    simp [uploadLoop, hq, hrest]

/-- The probe result only reaches the pipeline through `selectLine`: two
oracle bundles differing only in the probe behave identically whenever the
selected lines agree. -/
theorem uploaderUpload2_probe_congr {B VF U P : Type} (o : UploadOracles B VF U P)
    (pre : StudioPre) (byApp : Bool) (proxy userAgent : Option String)
    (p1 p2 : Except String Line)
    (h : selectLine pre.line p1 = selectLine pre.line p2) :
    uploaderUpload2 { o with probe := p1 } pre byApp proxy userAgent
      = uploaderUpload2 { o with probe := p2 } pre byApp proxy userAgent := by
  unfold uploaderUpload2
  dsimp only
  rw [h]

/-- The per-segment file names and the overall outcome of a download are
independent of which (if any) naming hook is installed. -/
theorem downloadModel_names_independent (hook : Option (String → HookEffect))
    (events : List DlEvent) :
    Except.map (List.map Prod.fst) (downloadModel hook events)
      = Except.map (List.map Prod.fst) (downloadModel none events) := by
  induction events with
  | nil => rfl
  | cons ev rest ih =>
    cases ev with
    | transportError m => rfl
    | segment name =>
      simp only [downloadModel]
      cases h1 : downloadModel hook rest with
      | error e =>
        cases h2 : downloadModel none rest with
        | error e2 =>
          rw [h1, h2] at ih
          simp [Except.map] at ih
          simp [Except.map, ih]
        | ok fs2 =>
          rw [h1, h2] at ih
          simp [Except.map] at ih
      | ok files =>
        cases h2 : downloadModel none rest with
        | error e2 =>
          rw [h1, h2] at ih
          simp [Except.map] at ih
        | ok fs2 =>
          rw [h1, h2] at ih
          simp [Except.map] at ih
          simp [Except.map, ih]

/-! ## Claim theorems -/

/-- C1: when the pipeline succeeds with a response whose data payload has a
string `bvid` field, the Python-facing `upload2` returns exactly that string;
when the data payload is absent, or the `bvid` field is absent or not a
string, `upload2` panics (an unrecoverable stop, not a typed error value). -/
theorem upload2_bvid_extraction {B VF U P : Type} (o : UploadOracles B VF U P)
    (byApp : Bool) (a : UploadArgs) (r1 r2 r3 : Bool)
    (proxy userAgent : Option String) (v : ResponseData)
    (h : uploaderUpload2 o (studioPreOfArgs a r1 r2 r3) byApp proxy userAgent = .ok v) :
    (∀ d s, v.data = some d → (d.get "bvid").asStr = some s →
      pyUpload2 o byApp a r1 r2 r3 proxy userAgent = .ok s)
    ∧ (v.data = none → pyUpload2 o byApp a r1 r2 r3 proxy userAgent = .panics)
    ∧ (∀ d, v.data = some d → (d.get "bvid").asStr = none →
      pyUpload2 o byApp a r1 r2 r3 proxy userAgent = .panics) := by
  refine ⟨?_, ?_, ?_⟩
  · intro d s hd hs
    simp [pyUpload2, h, extractBvid, hd, hs]
  · intro hd
    simp [pyUpload2, h, extractBvid, hd]
  · intro d hd hs
    simp [pyUpload2, h, extractBvid, hd, hs]

/-- C1 witness: a concrete fully successful run whose response carries
`data = obj [bvid ↦ "BV1demo"]` returns "BV1demo". -/
theorem upload2_bvid_extraction_witness :
    pyUpload2 demoOracles false demoArgs false false false none none = .ok "BV1demo" :=
  (upload2_bvid_extraction demoOracles false demoArgs false false false none none
      ⟨some (.obj [("bvid", .str "BV1demo")])⟩ rfl).1
    (.obj [("bvid", .str "BV1demo")]) "BV1demo" rfl rfl

/-- C2: the upload loop processes the files in caller-supplied order — on
full success the part list has the input's length and its i-th entry is the
part uploaded for the i-th file — and the first per-file failure (path
canonicalization, file open, pre-upload or chunk upload, all folded into
`processFile`) aborts the whole loop with exactly that error and no
partial-success value. -/
theorem upload2_sequential_parts {VF U P : Type}
    (canon : String → Except AnyhowError String)
    (videoFileNew : String → Except AnyhowError VF)
    (preUp : VF → Except AnyhowError U)
    (doUp : U → Except AnyhowError P) :
    (∀ (paths : List String) (parts : List P),
      uploadLoop canon videoFileNew preUp doUp paths = .ok parts →
      parts.length = paths.length ∧
      ∀ i (h1 : i < paths.length) (h2 : i < parts.length),
        processFile canon videoFileNew preUp doUp (paths.get ⟨i, h1⟩)
          = .ok (parts.get ⟨i, h2⟩))
    ∧ (∀ (pre : List String) (p : String) (post : List String) (e : AnyhowError),
      (∀ q ∈ pre, ∃ part, processFile canon videoFileNew preUp doUp q = .ok part) →
      processFile canon videoFileNew preUp doUp p = .error e →
      uploadLoop canon videoFileNew preUp doUp (pre ++ p :: post) = .error e) :=
  ⟨fun paths parts h => uploadLoop_ok_length_get canon videoFileNew preUp doUp paths parts h,
   fun pre p post e hpre hp =>
     uploadLoop_abort_first canon videoFileNew preUp doUp pre p post e hpre hp⟩

/-- C2 witness: with the first file's chunk upload failing, the loop over
`["a.mp4", "b.mp4"]` aborts with that error. -/
theorem upload2_sequential_parts_witness :
    uploadLoop (fun p => .ok p)
      (fun _ => (.ok () : Except AnyhowError Unit))
      (fun _ => (.ok () : Except AnyhowError Unit))
      (fun _ => (.error (.msg "chunk upload failed") : Except AnyhowError Unit))
      ([] ++ "a.mp4" :: ["b.mp4"]) = .error (.msg "chunk upload failed") :=
  (upload2_sequential_parts (fun p => .ok p)
      (fun _ => (.ok () : Except AnyhowError Unit))
      (fun _ => (.ok () : Except AnyhowError Unit))
      (fun _ => (.error (.msg "chunk upload failed") : Except AnyhowError Unit))).2
    [] "a.mp4" ["b.mp4"] (.msg "chunk upload failed")
    (by intro q hq; cases hq) rfl

/-- C3 counterexample: a cookie-file login rejected by the platform (a
non-IO failure) makes `upload2` abort with the bare credential error — no
`"open cookies file: <path>"` context layer is attached, refuting the claim
that every login failure is so tagged. -/
theorem login_context_counterexample :
    loginStep (.error (Kind.invalidCredential "platform rejected the credential")
          : Except Kind Unit) "cookies.json"
      = .error (.ofKind (Kind.invalidCredential "platform rejected the credential"))
    ∧ errHasContext (loginStep (.error (Kind.invalidCredential "platform rejected the credential")
          : Except Kind Unit) "cookies.json")
      = false :=
  ⟨rfl, rfl⟩

/-- C3 amended: an IO-kind login failure aborts the upload tagged with the
context `"open cookies file: <path>"`; every other login failure aborts with
the untagged error; in both cases the underlying error kind is preserved, so
an I/O failure and a rejected-credential failure stay distinguishable. -/
theorem login_error_propagation {B : Type} (r : Except Kind B) (path : String) :
    (∀ m, r = .error (Kind.ioError m) →
      loginStep r path
        = .error (.context ("open cookies file: " ++ path) (.ofKind (Kind.ioError m))))
    ∧ (∀ k, r = .error k → (∀ m, k ≠ Kind.ioError m) →
      loginStep r path = .error (.ofKind k))
    ∧ (∀ k, r = .error k → errKindOf (loginStep r path) = some k) := by
  refine ⟨?_, ?_, ?_⟩
  · intro m hm
    subst hm
    rfl
  · intro k hk hne
    subst hk
    cases k with
    | ioError m => exact absurd rfl (hne m)
    | invalidCredential m => rfl
    | notScanned => rfl
    | expired => rfl
    | invalidCode => rfl
  · intro k hk
    subst hk
    cases k <;> rfl

/-- C3 witness: a concrete missing-file login error is propagated wrapped in
the `"open cookies file: cookies.json"` context. -/
theorem login_error_propagation_witness :
    loginStep (.error (Kind.ioError "No such file or directory") : Except Kind Unit)
        "cookies.json"
      = .error (.context ("open cookies file: " ++ "cookies.json")
          (.ofKind (Kind.ioError "No such file or directory"))) :=
  (login_error_propagation
      (.error (Kind.ioError "No such file or directory") : Except Kind Unit) "cookies.json").1
    "No such file or directory" rfl

/-- C4: an explicitly supplied `UploadLine` selects its fixed endpoint and
makes the selection independent of the probe outcome (probing is advisory
only); with no explicit line, a probe error falls back to the fixed default
line; and the whole upload pipeline behaves on a probe error exactly as on a
probe that returned the default line — the operation never fails because of
the probe. -/
theorem line_selection {B VF U P : Type} (o : UploadOracles B VF U P)
    (pre : StudioPre) (byApp : Bool) (proxy userAgent : Option String)
    (l : UploadLine) (probe1 probe2 : Except String Line) (e : String) :
    selectLine (some l) probe1 = fixedLineOf l
    ∧ selectLine (some l) probe1 = selectLine (some l) probe2
    ∧ selectLine none (.error e) = Line.defaultLine
    ∧ uploaderUpload2 { o with probe := .error e } pre byApp proxy userAgent
      = uploaderUpload2 { o with probe := .ok Line.defaultLine } pre byApp proxy userAgent := by
  have h1 : ∀ pr, selectLine (some l) pr = fixedLineOf l := by
    intro pr
    cases l <;> rfl
  have hsel : selectLine pre.line (Except.error e)
      = selectLine pre.line (Except.ok Line.defaultLine) := by
    cases pre.line with
    | none => rfl
    | some u => cases u <;> rfl
  exact ⟨h1 probe1, (h1 probe1).trans (h1 probe2).symm, rfl,
    uploaderUpload2_probe_congr o pre byApp proxy userAgent _ _ hsel⟩

/-- C5: an empty cover reference is left unchanged with no upload; a
non-empty one whose local read fails aborts with the `"cover: <path>"`
context; a non-empty one that reads and uploads fine has its cover field
replaced by the returned remote URL, all other fields unchanged. -/
theorem cover_resolution {P : Type}
    (readFile : String → Except AnyhowError (List Nat))
    (coverUp : List Nat → Except AnyhowError String)
    (studio : Studio P) :
    (studio.cover = "" → resolveCover readFile coverUp studio = .ok studio)
    ∧ (∀ e, studio.cover ≠ "" → readFile studio.cover = .error e →
      resolveCover readFile coverUp studio
        = .error (.context ("cover: " ++ studio.cover) e))
    ∧ (∀ input url, studio.cover ≠ "" → readFile studio.cover = .ok input →
      coverUp input = .ok url →
      resolveCover readFile coverUp studio = .ok { studio with cover := url }) := by
  refine ⟨?_, ?_, ?_⟩
  · intro h
    simp [resolveCover, h]
  · intro e hne hre
    simp [resolveCover, hne, hre]
  · intro input url hne hre hcu
    simp [resolveCover, hne, hre, hcu]

/-- C5 witness: a concrete studio with a non-empty cover gets the uploaded
URL written into its cover field. -/
theorem cover_resolution_witness :
    resolveCover (fun _ => .ok [7])
      (fun _ => .ok "https://example.invalid/new.png") demoFetched
      = .ok { demoFetched with cover := "https://example.invalid/new.png" } :=
  (cover_resolution (fun _ => .ok [7]) (fun _ => .ok "https://example.invalid/new.png")
      demoFetched).2.2
    [7] "https://example.invalid/new.png" (by simp [demoFetched]) rfl rfl

/-- C6: once the edit pipeline reaches resubmission and the transport call
succeeds with a response whose integral `code` field is `c`, the operation
succeeds (returning the payload) exactly when `c = 0`, and fails with the
semantic `anyhow!("Edit failed: ...")` error when `c ≠ 0`. -/
theorem edit_semantic_failure {B P : Type} (o : EditOracles B P)
    (title cover tag : Option String) (b : B) (studio : Studio P)
    (response : Json) (c : Int)
    (hp : editPrepare o title cover tag = .ok (b, studio))
    (hs : o.editSubmit b studio = .ok response)
    (hc : response.get "code" = .num c) :
    ((edit o title cover tag).isOk = true ↔ c = 0)
    ∧ (c = 0 → edit o title cover tag = .ok response)
    ∧ (c ≠ 0 → edit o title cover tag
        = .error (.msg ("Edit failed: " ++ response.render))) := by
  have hA : (response.get "code").asInt = some c := by
    rw [hc]
    rfl
  refine ⟨?_, ?_, ?_⟩
  · by_cases h0 : c = 0
    · subst h0
      simp [edit, hp, hs, hA, Except.isOk, Except.toBool]
    · simp [edit, hp, hs, hA, h0, Except.isOk, Except.toBool]
  · intro h0
    subst h0
    simp [edit, hp, hs, hA]
  · intro h0
    simp [edit, hp, hs, hA, h0]

/-- C6 witness: a concrete edit whose resubmission answers with code 0
succeeds and returns the payload. -/
theorem edit_semantic_failure_witness :
    edit demoEditOracles none none none
      = .ok (.obj [("code", .num 0), ("message", .str "0")]) :=
  (edit_semantic_failure demoEditOracles none none none () demoFetched
      (.obj [("code", .num 0), ("message", .str "0")]) 0 rfl rfl rfl).2.1 rfl

/-- C7: the edit operation applies exactly the supplied overrides to the
fetched record — an unsupplied (None) title or tag keeps the fetched value,
an unsupplied cover is untouched, and a supplied cover is uploaded with the
returned URL replacing the field — while every other field of the fetched
record is unchanged. -/
theorem edit_overrides_frame {B P : Type} (o : EditOracles B P) (b : B)
    (fetched : Studio P) (title tag : Option String)
    (hl : o.login = .ok b) (hd : o.studioData b = .ok fetched) :
    (editPrepare o title none tag
      = .ok (b, { fetched with
          title := title.getD fetched.title,
          tag := tag.getD fetched.tag }))
    ∧ (∀ c input url, o.readFile c = .ok input → o.coverUp b input = .ok url →
      editPrepare o title (some c) tag
        = .ok (b, { fetched with
            title := title.getD fetched.title,
            cover := url,
            tag := tag.getD fetched.tag })) := by
  constructor
  · cases title <;> cases tag <;>
      simp [editPrepare, loginPlain, hl, hd, Option.getD]
  · intro c input url hre hcu
    cases title <;> cases tag <;>
      simp [editPrepare, loginPlain, hl, hd, hre, hcu, Option.getD]

/-- C7 witness: editing a fetched record titled "A" with title="B", tag=None,
cover=None yields the record with title "B" and the fetched tag and cover. -/
theorem edit_overrides_frame_witness :
    editPrepare demoEditOracles (some "B") none none
      = .ok ((), { demoFetched with
          title := (some "B").getD demoFetched.title,
          tag := (none : Option String).getD demoFetched.tag }) :=
  (edit_overrides_frame demoEditOracles () demoFetched (some "B") none rfl rfl).1

/-- C8 counterexample: a rejected SMS code (the inner login failing with
`InvalidCode`) makes the Python-facing `login_by_sms` return `Ok(false)` —
not a failure at all — and the very same `Ok(false)` results from an
unrelated IO failure, so the caller-visible result does not distinguish the
invalid-code case. -/
theorem login_by_sms_collapse_counterexample :
    pyLoginBySms (fun _ => some ())
        (fun _ _ => (Except.error Kind.invalidCode : Except Kind Unit)) 123456 "corr-token"
      = PyOutcome.ok false
    ∧ pyLoginBySms (fun _ => some ())
        (fun _ _ => (Except.error (Kind.ioError "connection reset") : Except Kind Unit))
        123456 "corr-token"
      = PyOutcome.ok false :=
  ⟨rfl, rfl⟩

/-- C8 amended: once the correlation token parses, the Python-facing
`login_by_sms` maps an inner success to `Ok(true)` and every inner failure —
including a rejected code (`InvalidCode`) — to the same `Ok(false)`: the
failure kind is collapsed into an undifferentiated boolean rather than
surfaced as a distinguishable error. -/
theorem login_by_sms_boolean_collapse {T R : Type} (parse : String → Option T)
    (inner : Nat → T → Except Kind R) (code : Nat) (ret : String) (tok : T)
    (hp : parse ret = some tok) :
    (∀ r, inner code tok = .ok r → pyLoginBySms parse inner code ret = .ok true)
    ∧ (∀ e, inner code tok = .error e → pyLoginBySms parse inner code ret = .ok false) := by
  constructor
  · intro r h
    simp [pyLoginBySms, hp, h]
  · intro e h
    simp [pyLoginBySms, hp, h]

/-- C8 witness: a concrete expired-session failure also maps to `Ok(false)`. -/
theorem login_by_sms_boolean_collapse_witness :
    pyLoginBySms (fun _ => some ())
        (fun _ _ => (Except.error Kind.expired : Except Kind Unit)) 654321 "tok2"
      = .ok false :=
  (login_by_sms_boolean_collapse (fun _ => some ())
      (fun _ _ => (Except.error Kind.expired : Except Kind Unit)) 654321 "tok2" () rfl).2
    Kind.expired rfl

/-- C9: the naming-hook wrapper invokes the callback with the proposed
segment file name and absorbs its outcome — a raised error becomes a logged
error, a success is discarded — and the download's outcome (success or the
surfaced transport error, and the written segment names, which stay the
proposed defaults) is identical with the hook installed or absent: a hook
failure never propagates as a fatal error of the download. -/
theorem hook_failure_not_fatal {ε α : Type} (callbackFn : String → Except ε α)
    (events : List DlEvent) :
    (∀ name e, callbackFn name = .error e → wrapCallback callbackFn name = .loggedError)
    ∧ (∀ name r, callbackFn name = .ok r → wrapCallback callbackFn name = .silent)
    ∧ Except.map (List.map Prod.fst)
        (downloadModel (some (wrapCallback callbackFn)) events)
      = Except.map (List.map Prod.fst) (downloadModel none events) := by
  refine ⟨?_, ?_, downloadModel_names_independent _ events⟩
  · intro name e h
    simp [wrapCallback, h]
  · intro name r h
    simp [wrapCallback, h]

/-- C9 witness: a concrete always-raising callback is logged, not propagated. -/
theorem hook_failure_not_fatal_witness :
    wrapCallback (fun _ => (Except.error "TypeError" : Except String Unit)) "seg1.flv"
      = HookEffect.loggedError :=
  (hook_failure_not_fatal (fun _ => (Except.error "TypeError" : Except String Unit))
      [DlEvent.segment "seg1.flv"]).1
    "seg1.flv" "TypeError" rfl

/-- C10: the legacy `upload` entry point behaves identically to `upload2`
invoked with `by_app = false`, the three reply/danmu flags false and no
proxy or user-agent override — same success, same raised error, same panic —
except that the returned identifier is discarded in favour of unit. -/
theorem upload_refines_upload2 {B VF U P : Type} (o : UploadOracles B VF U P)
    (a : UploadArgs) :
    (∀ s, pyUpload2 o false a false false false none none = .ok s →
      pyUpload o a = .ok ())
    ∧ (∀ e, pyUpload2 o false a false false false none none = .err e →
      pyUpload o a = .err e)
    ∧ (pyUpload2 o false a false false false none none = .panics →
      pyUpload o a = .panics)
    ∧ (∀ r, pyUpload o a = .ok r →
      ∃ s, pyUpload2 o false a false false false none none = .ok s) := by
  refine ⟨?_, ?_, ?_, ?_⟩
  · intro s h
    simp [pyUpload, h, PyOutcome.map]
  · intro e h
    simp [pyUpload, h, PyOutcome.map]
  · intro h
    simp [pyUpload, h, PyOutcome.map]
  · intro r h
    cases hx : pyUpload2 o false a false false false none none with
    | ok s => exact ⟨s, rfl⟩
    | err e => simp [pyUpload, hx, PyOutcome.map] at h
    | panics => simp [pyUpload, hx, PyOutcome.map] at h

/-- C10 witness: on a concrete fully successful run, the legacy entry point
returns unit where `upload2` returns the identifier. -/
theorem upload_refines_upload2_witness :
    pyUpload demoOracles demoArgs = .ok () :=
  (upload_refines_upload2 demoOracles demoArgs).1 "BV1demo" rfl

end StreamGears
